import Mathlib

/-!
Shallow embedding of the CDS services tutorial endpoint (two variants of
the same Express application: `src/index.js`, the order-select variant with
an authorization gate, and `src/unnamed/part_000`, the medication-prescribe
variant without one).

JavaScript conventions are made explicit:
- a field that may be absent is an `Option`;
- an access path that would throw a TypeError (reading a property of
  `undefined`) makes the enclosing handler return `none`;
- `a || b` on strings treats the empty string as falsy;
- in-place mutation of the caller-supplied object is modelled by state
  passing: the generator returns the final value of its argument alongside
  the response.
-/

namespace CDS

/-- One entry of a `coding` array of a FHIR codeable concept. -/
structure Coding where
  display : String
  system : String
  code : String
deriving DecidableEq

/-- A FHIR codeable concept identifying a medication. -/
structure MedicationConcept where
  text : String
  coding : List Coding
deriving DecidableEq

/-- A draft medication order (MedicationRequest / MedicationOrder resource). -/
structure DraftOrder where
  resourceType : String
  id : String
  medicationCodeableConcept : Option MedicationConcept
deriving DecidableEq

/-- A `source` object attached to a card. -/
structure CardSource where
  label : String
  url : String
deriving DecidableEq

/-- One entry of a `links` array of a card. -/
structure CardLink where
  label : String
  url : String
  type : String
deriving DecidableEq

/-- One entry of an `actions` array of a suggestion. -/
structure Action where
  type : String
  description : Option String
  resource : DraftOrder
deriving DecidableEq

/-- One entry of a `suggestions` array of a card. -/
structure Suggestion where
  label : String
  actions : List Action
deriving DecidableEq

/-- A CDS Hooks card.  The `suggestions` field is absent (`none`) on purely
informational cards. -/
structure Card where
  summary : String
  indicator : String
  source : Option CardSource
  links : List CardLink
  suggestions : Option (List Suggestion)
deriving DecidableEq

/-- The wire-level reply body of every hook invocation. -/
structure CardResponse where
  cards : List Card
deriving DecidableEq

/-- The fixed target concept the service recommends
(Aspirin 81 MG Oral Tablet, RxNorm code 243670). -/
def aspirinConcept : MedicationConcept :=
  { text := "Aspirin 81 MG Oral Tablet",
    coding := [{ display := "Aspirin 81 MG Oral Tablet",
                 system := "http://www.nlm.nih.gov/research/umls/rxnorm",
                 code := "243670" }] }

/-- `createMedicationResponseCard` of `src/index.js` (lines 155-216).
Returns the card response together with the final value of the
caller-supplied `context` object: the else-branch of the source binds
`let newMedicationRequest = context` (an alias, not a copy) and then
assigns `newMedicationRequest.medicationCodeableConcept`, mutating the
argument in place.  `none` models the TypeError thrown when
`context.medicationCodeableConcept.coding[0].code` is not reachable. -/
def createMedicationResponseCard (context : DraftOrder) :
    Option (CardResponse × DraftOrder) :=
  match context.medicationCodeableConcept with
  | none => none
  | some mcc =>
    match mcc.coding.head? with
    | none => none
    | some c0 =>
      if c0.code = "243670" then
        some ({ cards := [{ summary := "Currently prescribing a low-dose Aspirin",
                            indicator := "info",
                            source := some { label := "CDS Service Tutorial",
                                             url := "https://github.com/cerner/cds-services-tutorial/wiki/Order-Select-Service" },
                            links := [],
                            suggestions := none }] },
              context)
      else
        let newMedicationRequest : DraftOrder :=
          { context with medicationCodeableConcept := some aspirinConcept }
        some ({ cards := [{ summary := "Reduce cardiovascular risks, prescribe daily 81 MG Aspirin",
                            indicator := "warning",
                            source := some { label := "CDS Service Tutorial",
                                             url := "https://github.com/cerner/cds-services-tutorial/wiki/Order-Select-Service" },
                            links := [],
                            suggestions := some [{ label := "Switch to low-dose Aspirin",
                                                   actions := [{ type := "create",
                                                                 description := some "Modifying existing medication order to be Aspirin",
                                                                 resource := newMedicationRequest }] }] }] },
              newMedicationRequest)

/-- `createMedicationResponseCard` of `src/unnamed/part_000` (lines 116-171).
Same algorithm as the `src/index.js` version; the info card carries no
`source`, the action carries no `description`, and the warning card cites a
different source label and url.  The else-branch mutates its argument in
place exactly as the `src/index.js` version does. -/
def createMedicationResponseCard_v0 (context : DraftOrder) :
    Option (CardResponse × DraftOrder) :=
  match context.medicationCodeableConcept with
  | none => none
  | some mcc =>
    match mcc.coding.head? with
    | none => none
    | some c0 =>
      if c0.code = "243670" then
        some ({ cards := [{ summary := "Currently prescribing a low-dose Aspirin",
                            indicator := "info",
                            source := none,
                            links := [],
                            suggestions := none }] },
              context)
      else
        let newMedicationOrder : DraftOrder :=
          { context with medicationCodeableConcept := some aspirinConcept }
        some ({ cards := [{ summary := "Reduce cardiovascular risks, prescribe daily 81 MG Aspirin",
                            indicator := "warning",
                            source := some { label := "Learn more about Suggestions",
                                             url := "http://cds-hooks.org/#cds-service-response" },
                            links := [],
                            suggestions := some [{ label := "Switch to low-dose Aspirin",
                                                   actions := [{ type := "create",
                                                                 description := none,
                                                                 resource := newMedicationOrder }] }] }] },
              newMedicationOrder)

/-- One entry of a FHIR Patient `name` array. -/
structure HumanName where
  given : List String
  family : List String
deriving DecidableEq

/-- The prefetched Patient resource. -/
structure Patient where
  name : List HumanName
deriving DecidableEq

/-- JavaScript indexing of a string array inside a string concatenation:
an out-of-range index yields `undefined`, which string concatenation
renders as the text "undefined" (no TypeError is thrown). -/
def jsIndexStr (xs : List String) (i : Nat) : String :=
  match xs.get? i with
  | some s => s
  | none => "undefined"

/-- The patient-view handler of `src/index.js` (lines 99-124).  The argument
is `request.body.prefetch.requestedPatient.resource` (`none` when any link
of that access path is absent, in which case the handler throws — `none`).
Accessing `name[0]` of an empty `name` array also throws. -/
def handlePatientView (patientResource : Option Patient) : Option CardResponse :=
  match patientResource with
  | none => none
  | some p =>
    match p.name.head? with
    | none => none
    | some name0 =>
      some { cards := [{ summary := "Now seeing: " ++ jsIndexStr name0.given 0
                                      ++ " " ++ jsIndexStr name0.family 0,
                         indicator := "info",
                         source := some { label := "CDS Service Tutorial",
                                          url := "https://github.com/cerner/cds-services-tutorial/wiki/Patient-View-Service" },
                         links := [{ label := "Learn more about CDS Hooks",
                                     url := "http://cds-hooks.org",
                                     type := "absolute" }],
                         suggestions := none }] }

/-- The patient-view handler of `src/unnamed/part_000` (lines 66-87): same
as the `src/index.js` version but the card carries no `source`. -/
def handlePatientView_v0 (patientResource : Option Patient) : Option CardResponse :=
  match patientResource with
  | none => none
  | some p =>
    match p.name.head? with
    | none => none
    | some name0 =>
      some { cards := [{ summary := "Now seeing: " ++ jsIndexStr name0.given 0
                                      ++ " " ++ jsIndexStr name0.family 0,
                         indicator := "info",
                         source := none,
                         links := [{ label := "Learn more about CDS Hooks",
                                     url := "http://cds-hooks.org",
                                     type := "absolute" }],
                         suggestions := none }] }

/-- An advertised CDS service (discovery catalog entry).  `prefetch` is an
association list of prefetch template entries, absent when the service
declares none. -/
structure ServiceDescriptor where
  hook : String
  id : String
  title : String
  description : String
  prefetch : Option (List (String × String))
deriving DecidableEq

/-- The body of the discovery response. -/
structure DiscoveryResponse where
  services : List ServiceDescriptor
deriving DecidableEq

/-- A response body: either the discovery catalog or a card response. -/
inductive RespBody where
  | services (resp : DiscoveryResponse)
  | cards (resp : CardResponse)
deriving DecidableEq

/-- What a route handler leaves on the response object: the status code and
the body it sent, if any. -/
structure HandlerResult where
  status : Nat
  body : Option RespBody
deriving DecidableEq

/-- One entry of `context.draftOrders.entry`. -/
structure BundleEntry where
  resource : DraftOrder
deriving DecidableEq

/-- The `context.draftOrders` bundle; its `entry` array may be absent. -/
structure DraftOrdersBundle where
  entry : Option (List BundleEntry)
deriving DecidableEq

/-- The `context` of an order-select hook request. -/
structure OrderSelectContext where
  draftOrders : Option DraftOrdersBundle
  selections : Option (List String)
deriving DecidableEq

/-- The literal array `['MedicationRequest', 'MedicationOrder']` of
`src/index.js` line 142. -/
def orderResourceTypes : List String := ["MedicationRequest", "MedicationOrder"]

/-- The order-select handler of `src/index.js` (lines 135-148).  The argument
is `request.body.context` (`none` when absent).  `none` as result models the
TypeError thrown while extracting `context.draftOrders.entry[0].resource` or
while calling `selections.includes` on an absent `selections`.  When the
guard condition is false the handler sends no body and merely sets status
200; when it is true it sends the generated card response (and the
subsequent `response.status(200)` leaves the status at 200). -/
def handleOrderSelect (ctx : Option OrderSelectContext) : Option HandlerResult :=
  match ctx with
  | none => none
  | some context =>
    match context.draftOrders with
    | none => none
    | some bundle =>
      match bundle.entry with
      | none => none
      | some entries =>
        match entries.head? with
        | none => none
        | some e =>
          let draftOrder := e.resource
          if orderResourceTypes.contains draftOrder.resourceType then
            match context.selections with
            | none => none
            | some selections =>
              if selections.contains (draftOrder.resourceType ++ "/" ++ draftOrder.id) then
                if draftOrder.medicationCodeableConcept.isSome then
                  match createMedicationResponseCard draftOrder with
                  | none => none
                  | some (responseCard, _) =>
                    some { status := 200, body := some (RespBody.cards responseCard) }
                else
                  some { status := 200, body := none }
              else
                some { status := 200, body := none }
          else
            some { status := 200, body := none }

/-- The medication-prescribe handler of `src/unnamed/part_000`
(lines 98-109).  The argument is `request.body.context`, an array whose
first element is the draft order (`none` when `context` is absent; an empty
array makes `context[0].medicationCodeableConcept` throw — `none`). -/
def handleMedicationPrescribe (ctx : Option (List DraftOrder)) : Option HandlerResult :=
  match ctx with
  | none => none
  | some ctxArr =>
    match ctxArr.head? with
    | none => none
    | some context =>
      if context.medicationCodeableConcept.isSome then
        match createMedicationResponseCard_v0 context with
        | none => none
        | some (responseCard, _) =>
          some { status := 200, body := some (RespBody.cards responseCard) }
      else
        some { status := 200, body := none }

/-- The patient-view catalog entry of `src/index.js` (lines 66-76). -/
def patientViewExample : ServiceDescriptor :=
  { hook := "patient-view",
    id := "patient-view-example",
    title := "Example patient-view CDS Service",
    description := "Displays the name and gender of the patient",
    prefetch := some [("requestedPatient", "Patient/\x7b\x7bcontext.patientId\x7d\x7d")] }

/-- The order-select catalog entry of `src/index.js` (lines 79-84): no
prefetch template. -/
def orderSelectExample : ServiceDescriptor :=
  { hook := "order-select",
    id := "order-select-example",
    title := "Example order-select CDS Service",
    description := "Suggests prescribing Aspirin 81 MG Oral Tablets",
    prefetch := none }

/-- The discovery catalog of `src/index.js` (lines 86-88). -/
def discoveryEndpointServices : DiscoveryResponse :=
  { services := [patientViewExample, orderSelectExample] }

/-- The patient-view catalog entry of `src/unnamed/part_000` (lines 33-43). -/
def patientViewExample_v0 : ServiceDescriptor :=
  { hook := "patient-view",
    id := "patient-view-example",
    title := "Example patient-view CDS Service",
    description := "Displays the name and gender of the patient",
    prefetch := some [("requestedPatient", "Patient/\x7b\x7bPatient.id\x7d\x7d")] }

/-- The medication-prescribe catalog entry of `src/unnamed/part_000`
(lines 46-51): no prefetch template. -/
def medicationPrescribeExample : ServiceDescriptor :=
  { hook := "medication-prescribe",
    id := "medication-prescribe-example",
    title := "Example medication-prescribe CDS Service",
    description := "Suggests prescribing Aspirin 81 MG Oral Tablets",
    prefetch := none }

/-- The discovery catalog of `src/unnamed/part_000` (lines 53-55). -/
def discoveryEndpointServices_v0 : DiscoveryResponse :=
  { services := [patientViewExample_v0, medicationPrescribeExample] }

/-- The header set installed by the CORS middleware (`src/index.js`
lines 12-22 and `src/unnamed/part_000` lines 12-22; identical in both). -/
def corsHeaders : List (String × String) :=
  [("Access-Control-Allow-Origin", "*"),
   ("Access-Control-Allow-Methods", "GET, POST, OPTIONS"),
   ("Access-Control-Allow-Credentials", "true"),
   ("Access-Control-Allow-Headers", "Content-Type, Authorization"),
   ("Access-Control-Expose-Headers", "Origin, Accept, Content-Location, Location, X-Requested-With")]

/-- The fields of the request body that the three route handlers read.
JSON is dynamic, so each field is the projection of the same body onto the
shape one handler expects; `none` marks any break in the access path. -/
structure RequestBody where
  prefetchPatient : Option Patient
  orderSelectContext : Option OrderSelectContext
  contextArr : Option (List DraftOrder)
deriving DecidableEq

/-- An inbound HTTP request as the middleware and routes observe it. -/
structure Request where
  method : String
  path : String
  host : String
  authorization : Option String
  body : RequestBody
deriving DecidableEq

/-- JavaScript `a || b` on an optional string: an absent header
(`undefined`) and the empty string are both falsy. -/
def jsOrDefault (value : Option String) (fallback : String) : String :=
  match value with
  | none => fallback
  | some s => if s = "" then fallback else s

/-- JavaScript `s.startsWith(p)`: the characters of `p` lead those of `s`.
Defined by structural recursion on the character lists so that it evaluates
inside the kernel. -/
def jsStartsWith (s p : String) : Bool :=
  p.data.isPrefixOf s.data

/-- The `WWW-Authenticate` challenge built by `src/index.js` line 39. -/
def authChallenge (serviceHost : String) : String :=
  "Bearer realm=\"" ++ serviceHost ++ "\", error=\"invalid_token\", error_description=\"No Bearer token provided.\""

/-- Outcome of the authorization middleware: pass to the next layer
(carrying the effective authorization header, `none` on the OPTIONS bypass
where none is computed), or reject with 401, empty body and the given
`WWW-Authenticate` header. -/
inductive GateOutcome where
  | pass (credential : Option String)
  | reject (wwwAuthenticate : String)
deriving DecidableEq

/-- The authorization middleware of `src/index.js` (lines 28-55).  OPTIONS
requests pass unconditionally; otherwise the header is defaulted with
`|| 'Bearer open'`, must start with `Bearer`, and the stubbed token check
(`isValid = true`) never rejects. -/
def authGate (req : Request) : GateOutcome :=
  if req.method = "OPTIONS" then
    GateOutcome.pass none
  else
    let authorizationHeader := jsOrDefault req.authorization "Bearer open"
    if jsStartsWith authorizationHeader "Bearer" then
      let isValid := true
      if isValid then
        GateOutcome.pass (some authorizationHeader)
      else
        GateOutcome.reject ("Bearer realm=\"" ++ req.host ++ "\", error=\"invalid_token\", error_description=\"Token error description.\"")
    else
      GateOutcome.reject (authChallenge req.host)

/-- Outcome of a full dispatch: rejected by the gate with 401 and no body,
routed to a handler (whose result is `none` when the handler throws), or no
route matched (the framework falls through to 404). -/
inductive RouteOutcome where
  | unauthorized (wwwAuthenticate : String)
  | routed (result : Option HandlerResult)
  | notFound
deriving DecidableEq

/-- `true` exactly on a 401 gate rejection. -/
def RouteOutcome.isUnauthorized : RouteOutcome → Bool
  | RouteOutcome.unauthorized _ => true
  | _ => false

/-- The routing layer of `src/index.js`: `GET /cds-services` (line 63),
`POST /cds-services/patient-view-example` (line 99),
`POST /cds-services/order-select-example` (line 135), in registration
order; `response.send` leaves the default status 200. -/
def routeOutcome (req : Request) : RouteOutcome :=
  if req.method = "GET" then
    if req.path = "/cds-services" then
      RouteOutcome.routed (some { status := 200,
                                  body := some (RespBody.services discoveryEndpointServices) })
    else
      RouteOutcome.notFound
  else if req.method = "POST" then
    if req.path = "/cds-services/patient-view-example" then
      RouteOutcome.routed ((handlePatientView req.body.prefetchPatient).map
        fun c => { status := 200, body := some (RespBody.cards c) })
    else if req.path = "/cds-services/order-select-example" then
      RouteOutcome.routed (handleOrderSelect req.body.orderSelectContext)
    else
      RouteOutcome.notFound
  else
    RouteOutcome.notFound

/-- The full middleware chain of `src/index.js`: the CORS middleware
attaches its headers to every response, then the authorization gate either
rejects or lets routing proceed. -/
def appDispatch (req : Request) : List (String × String) × RouteOutcome :=
  (corsHeaders,
   match authGate req with
   | GateOutcome.pass _ => routeOutcome req
   | GateOutcome.reject www => RouteOutcome.unauthorized www)

/-- The routing layer of `src/unnamed/part_000`: `GET /cds-services`
(line 30), `POST /cds-services/patient-view-example` (line 66),
`POST /cds-services/medication-prescribe-example` (line 98). -/
def routeOutcome_v0 (req : Request) : RouteOutcome :=
  if req.method = "GET" then
    if req.path = "/cds-services" then
      RouteOutcome.routed (some { status := 200,
                                  body := some (RespBody.services discoveryEndpointServices_v0) })
    else
      RouteOutcome.notFound
  else if req.method = "POST" then
    if req.path = "/cds-services/patient-view-example" then
      RouteOutcome.routed ((handlePatientView_v0 req.body.prefetchPatient).map
        fun c => { status := 200, body := some (RespBody.cards c) })
    else if req.path = "/cds-services/medication-prescribe-example" then
      RouteOutcome.routed (handleMedicationPrescribe req.body.contextArr)
    else
      RouteOutcome.notFound
  else
    RouteOutcome.notFound

/-- The full middleware chain of `src/unnamed/part_000`: only the CORS
middleware runs before routing — there is no authorization middleware in
this variant. -/
def appDispatch_v0 (req : Request) : List (String × String) × RouteOutcome :=
  (corsHeaders, routeOutcome_v0 req)

/-- A medication concept whose first coding is not the target code. -/
def sampleConcept999 : MedicationConcept :=
  { text := "Some Medication",
    coding := [{ display := "Some Medication",
                 system := "http://www.nlm.nih.gov/research/umls/rxnorm",
                 code := "999999" }] }

/-- A draft order carrying a non-matching medication code. -/
def sampleOrder999 : DraftOrder :=
  { resourceType := "MedicationRequest",
    id := "order-123",
    medicationCodeableConcept := some sampleConcept999 }

/-- A draft order already carrying the recommended concept. -/
def sampleOrderAspirin : DraftOrder :=
  { resourceType := "MedicationRequest",
    id := "order-456",
    medicationCodeableConcept := some aspirinConcept }

/-- What `sampleOrder999` becomes after the generator runs on it: its
medication concept is overwritten with the target concept. -/
def mutatedOrder999 : DraftOrder :=
  { sampleOrder999 with medicationCodeableConcept := some aspirinConcept }

/-- An empty request body. -/
def emptyBody : RequestBody :=
  { prefetchPatient := none, orderSelectContext := none, contextArr := none }

/-- The response shape the spec promises for a non-matching medication code:
exactly one warning card with exactly one suggestion holding exactly one
create action whose resource carries the target code 243670. -/
def warningCardShape (generate : DraftOrder → Option (CardResponse × DraftOrder))
    (context : DraftOrder) : Prop :=
  ∃ resp final, generate context = some (resp, final) ∧
    ∃ card, resp.cards = [card] ∧ card.indicator = "warning" ∧
      ∃ sugg, card.suggestions = some [sugg] ∧
        ∃ act, sugg.actions = [act] ∧ act.type = "create" ∧
          ∃ mcc, act.resource.medicationCodeableConcept = some mcc ∧
            ∃ c0, mcc.coding.head? = some c0 ∧ c0.code = "243670"

/-- The response shape the spec promises for the matching medication code:
exactly one info card with the fixed summary and no suggestions, the
caller-supplied order returned unchanged. -/
def infoCardShape (generate : DraftOrder → Option (CardResponse × DraftOrder))
    (context : DraftOrder) : Prop :=
  ∃ resp, generate context = some (resp, context) ∧
    ∃ card, resp.cards = [card] ∧ card.indicator = "info" ∧
      card.summary = "Currently prescribing a low-dose Aspirin" ∧
      card.suggestions = none

/-- Claim C1: for every draft order satisfying the input contract whose
first coding code is not 243670, both variants of the card generator return
exactly one warning card with exactly one suggestion containing exactly one
create action whose resource carries code 243670. -/
theorem C1_nonmatching_code_yields_warning_card (context : DraftOrder)
    (mcc : MedicationConcept) (c0 : Coding)
    (hmcc : context.medicationCodeableConcept = some mcc)
    (hc0 : mcc.coding.head? = some c0)
    (hne : c0.code ≠ "243670") :
    warningCardShape createMedicationResponseCard context ∧
    warningCardShape createMedicationResponseCard_v0 context := by
  constructor
  · unfold warningCardShape
    simp only [createMedicationResponseCard, hmcc, hc0]
    rw [if_neg hne]
    exact ⟨_, _, rfl, _, rfl, rfl, _, rfl, _, rfl, rfl, aspirinConcept, rfl, _, rfl, rfl⟩
  · unfold warningCardShape
    simp only [createMedicationResponseCard_v0, hmcc, hc0]
    rw [if_neg hne]
    exact ⟨_, _, rfl, _, rfl, rfl, _, rfl, _, rfl, rfl, aspirinConcept, rfl, _, rfl, rfl⟩

/-- Witness for C1 at a concrete draft order with code 999999. -/
theorem C1_nonmatching_code_yields_warning_card_witness :
    warningCardShape createMedicationResponseCard sampleOrder999 ∧
    warningCardShape createMedicationResponseCard_v0 sampleOrder999 :=
  C1_nonmatching_code_yields_warning_card sampleOrder999 sampleConcept999
    { display := "Some Medication",
      system := "http://www.nlm.nih.gov/research/umls/rxnorm",
      code := "999999" }
    rfl rfl (by decide)

/-- Claim C2: for every draft order satisfying the input contract whose
first coding code equals 243670, both variants of the card generator return
exactly one info card with summary "Currently prescribing a low-dose
Aspirin" and no suggestions. -/
theorem C2_matching_code_yields_info_card (context : DraftOrder)
    (mcc : MedicationConcept) (c0 : Coding)
    (hmcc : context.medicationCodeableConcept = some mcc)
    (hc0 : mcc.coding.head? = some c0)
    (heq : c0.code = "243670") :
    infoCardShape createMedicationResponseCard context ∧
    infoCardShape createMedicationResponseCard_v0 context := by
  constructor
  · unfold infoCardShape
    simp only [createMedicationResponseCard, hmcc, hc0]
    rw [if_pos heq]
    exact ⟨_, rfl, _, rfl, rfl, rfl, rfl⟩
  · unfold infoCardShape
    simp only [createMedicationResponseCard_v0, hmcc, hc0]
    rw [if_pos heq]
    exact ⟨_, rfl, _, rfl, rfl, rfl, rfl⟩

/-- Witness for C2 at a concrete draft order already carrying code 243670. -/
theorem C2_matching_code_yields_info_card_witness :
    infoCardShape createMedicationResponseCard sampleOrderAspirin ∧
    infoCardShape createMedicationResponseCard_v0 sampleOrderAspirin :=
  C2_matching_code_yields_info_card sampleOrderAspirin aspirinConcept
    { display := "Aspirin 81 MG Oral Tablet",
      system := "http://www.nlm.nih.gov/research/umls/rxnorm",
      code := "243670" }
    rfl rfl rfl

/-- Claim C3 (refuting evaluation): on a draft order with code 999999, both
generators return, as the final value of the caller-supplied order, an order
whose medication concept has been overwritten with the target concept — the
input object is not left unchanged, contradicting the claim (and the
comment "1. Copy the current ... resource" in the source). -/
theorem C3_generator_mutates_caller_order :
    (createMedicationResponseCard sampleOrder999).map Prod.snd = some mutatedOrder999 ∧
    (createMedicationResponseCard_v0 sampleOrder999).map Prod.snd = some mutatedOrder999 ∧
    decide (mutatedOrder999 = sampleOrder999) = false ∧
    mutatedOrder999.medicationCodeableConcept = some aspirinConcept ∧
    sampleOrder999.medicationCodeableConcept = some sampleConcept999 := by
  decide

/-- Claim C4: when the guard condition of the hook handler is false — the
resource type is not an order type, or the draft order reference is not
among the selections, or no medication concept is present (for the
prescribe variant: no medication concept) — the handler sends no body and
leaves status 200, in both variants. -/
theorem C4_contract_failure_sends_no_body_status_200
    (d : DraftOrder) (rest : List BundleEntry) (sels : List String)
    (hfail : (orderResourceTypes.contains d.resourceType &&
              sels.contains (d.resourceType ++ "/" ++ d.id) &&
              d.medicationCodeableConcept.isSome) = false)
    (d2 : DraftOrder) (rest2 : List DraftOrder)
    (hno : d2.medicationCodeableConcept = none) :
    handleOrderSelect (some { draftOrders := some { entry := some ({ resource := d } :: rest) },
                              selections := some sels })
      = some { status := 200, body := none } ∧
    handleMedicationPrescribe (some (d2 :: rest2)) = some { status := 200, body := none } := by
  constructor
  · simp only [handleOrderSelect, List.head?_cons]
    cases h1 : orderResourceTypes.contains d.resourceType with
    | false => simp [h1]
    | true =>
      cases h2 : sels.contains (d.resourceType ++ "/" ++ d.id) with
      | false => simp [h1, h2]
      | true =>
        cases h3 : d.medicationCodeableConcept.isSome with
        | false => simp [h1, h2, h3]
        | true =>
          rw [h1, h2, h3] at hfail
          simp at hfail
  · simp only [handleMedicationPrescribe, List.head?_cons, hno]
    simp

/-- Witness for C4: a draft order of a non-order resource type with empty
selections, and a prescribe-hook order without a medication concept. -/
theorem C4_contract_failure_sends_no_body_status_200_witness :
    handleOrderSelect (some { draftOrders := some { entry := some [{ resource :=
        { resourceType := "Observation", id := "obs-1", medicationCodeableConcept := none } }] },
                              selections := some [] })
      = some { status := 200, body := none } ∧
    handleMedicationPrescribe (some ({ resourceType := "MedicationOrder", id := "m-1",
                                       medicationCodeableConcept := none } :: []))
      = some { status := 200, body := none } :=
  C4_contract_failure_sends_no_body_status_200
    { resourceType := "Observation", id := "obs-1", medicationCodeableConcept := none }
    [] [] (by decide)
    { resourceType := "MedicationOrder", id := "m-1", medicationCodeableConcept := none }
    [] rfl

lemma routeOutcome_not_unauthorized (req : Request) :
    (routeOutcome req).isUnauthorized = false := by
  unfold routeOutcome
  repeat' split
  all_goals rfl

lemma routeOutcome_v0_not_unauthorized (req : Request) :
    (routeOutcome_v0 req).isUnauthorized = false := by
  unfold routeOutcome_v0
  repeat' split
  all_goals rfl

/-- Claim C5: every OPTIONS request passes the authorization gate
unconditionally — dispatch proceeds straight to routing, the outcome is
never a 401 rejection, and the CORS header set is attached. -/
theorem C5_options_requests_bypass_gate (req : Request)
    (h : req.method = "OPTIONS") :
    appDispatch req = (corsHeaders, routeOutcome req) ∧
    (appDispatch req).2.isUnauthorized = false := by
  have hgate : authGate req = GateOutcome.pass none := by
    unfold authGate
    rw [if_pos h]
  have hd : appDispatch req = (corsHeaders, routeOutcome req) := by
    unfold appDispatch
    rw [hgate]
  refine ⟨hd, ?_⟩
  rw [hd]
  exact routeOutcome_not_unauthorized req

/-- Witness for C5 at a concrete OPTIONS request carrying a non-Bearer
Authorization header. -/
theorem C5_options_requests_bypass_gate_witness :
    appDispatch { method := "OPTIONS", path := "/cds-services", host := "example.com",
                  authorization := some "Basic abc", body := emptyBody }
      = (corsHeaders, routeOutcome { method := "OPTIONS", path := "/cds-services",
                                     host := "example.com", authorization := some "Basic abc",
                                     body := emptyBody }) ∧
    (appDispatch { method := "OPTIONS", path := "/cds-services", host := "example.com",
                   authorization := some "Basic abc", body := emptyBody }).2.isUnauthorized = false :=
  C5_options_requests_bypass_gate
    { method := "OPTIONS", path := "/cds-services", host := "example.com",
      authorization := some "Basic abc", body := emptyBody } rfl

/-- Claim C6: a non-OPTIONS request with no Authorization header is not
rejected: the gate substitutes the placeholder credential `Bearer open` and
passes. -/
theorem C6_missing_header_gets_default_credential (req : Request)
    (hm : req.method ≠ "OPTIONS") (ha : req.authorization = none) :
    authGate req = GateOutcome.pass (some "Bearer open") := by
  unfold authGate
  rw [if_neg hm, ha]
  rfl

/-- Witness for C6 at a concrete POST without an Authorization header. -/
theorem C6_missing_header_gets_default_credential_witness :
    authGate { method := "POST", path := "/cds-services/order-select-example",
               host := "example.com", authorization := none, body := emptyBody }
      = GateOutcome.pass (some "Bearer open") :=
  C6_missing_header_gets_default_credential
    { method := "POST", path := "/cds-services/order-select-example",
      host := "example.com", authorization := none, body := emptyBody }
    (by decide) rfl

/-- Counterexample to claim C7 as stated: a POST whose Authorization header
is present with the empty-string value.  The empty string does not start
with `Bearer`, yet the gate does not return 401: the JavaScript default
`request.get(..) || 'Bearer open'` treats the empty string as falsy and
substitutes the placeholder, so the request passes. -/
theorem C7_empty_header_passes_counterexample :
    (some "" : Option String) = some "" ∧
    jsStartsWith "" "Bearer" = false ∧
    authGate { method := "POST", path := "/cds-services", host := "example.com",
               authorization := some "", body := emptyBody }
      = GateOutcome.pass (some "Bearer open") ∧
    (appDispatch { method := "POST", path := "/cds-services", host := "example.com",
                   authorization := some "", body := emptyBody }).2.isUnauthorized = false := by
  decide

/-- Claim C7 as amended: for every non-OPTIONS request whose Authorization
header is present, non-empty and does not start with `Bearer`, dispatch
stops at the gate with a 401 rejection (no route handler runs, the gate
sends no body) whose `WWW-Authenticate` header names the realm (the request
host) and `invalid_token`. -/
theorem C7_non_bearer_header_rejected_401 (req : Request) (s : String)
    (hm : req.method ≠ "OPTIONS") (ha : req.authorization = some s)
    (hne : s ≠ "") (hsw : jsStartsWith s "Bearer" = false) :
    appDispatch req = (corsHeaders, RouteOutcome.unauthorized (authChallenge req.host)) ∧
    authChallenge req.host =
      "Bearer realm=\"" ++ req.host
        ++ "\", error=\"invalid_token\", error_description=\"No Bearer token provided.\"" := by
  have hgate : authGate req = GateOutcome.reject (authChallenge req.host) := by
    unfold authGate
    rw [if_neg hm, ha]
    simp only [jsOrDefault]
    rw [if_neg hne]
    simp [hsw]
  constructor
  · unfold appDispatch
    rw [hgate]
  · rfl

/-- Witness for the amended C7 at a concrete request with a
`Token abc` header. -/
theorem C7_non_bearer_header_rejected_401_witness :
    appDispatch { method := "POST", path := "/cds-services", host := "example.com",
                  authorization := some "Token abc", body := emptyBody }
      = (corsHeaders, RouteOutcome.unauthorized (authChallenge "example.com")) ∧
    authChallenge "example.com" =
      "Bearer realm=\"" ++ "example.com"
        ++ "\", error=\"invalid_token\", error_description=\"No Bearer token provided.\"" :=
  C7_non_bearer_header_rejected_401
    { method := "POST", path := "/cds-services", host := "example.com",
      authorization := some "Token abc", body := emptyBody }
    "Token abc" (by decide) rfl (by decide) (by decide)

/-- Claim C8: for every prefetched patient whose first name entry has
non-empty given and family arrays, both patient-view handlers return
exactly one info card whose summary is `Now seeing: ` followed by
`given[0]`, a space and `family[0]`, with the static documentation link and
no suggestions. -/
theorem C8_patient_view_single_info_card (p : Patient) (n : HumanName)
    (g f : String) (gs fs : List String) (ns : List HumanName)
    (hname : p.name = n :: ns) (hg : n.given = g :: gs) (hf : n.family = f :: fs) :
    handlePatientView (some p) =
      some { cards := [{ summary := "Now seeing: " ++ g ++ " " ++ f,
                         indicator := "info",
                         source := some { label := "CDS Service Tutorial",
                                          url := "https://github.com/cerner/cds-services-tutorial/wiki/Patient-View-Service" },
                         links := [{ label := "Learn more about CDS Hooks",
                                     url := "http://cds-hooks.org",
                                     type := "absolute" }],
                         suggestions := none }] } ∧
    handlePatientView_v0 (some p) =
      some { cards := [{ summary := "Now seeing: " ++ g ++ " " ++ f,
                         indicator := "info",
                         source := none,
                         links := [{ label := "Learn more about CDS Hooks",
                                     url := "http://cds-hooks.org",
                                     type := "absolute" }],
                         suggestions := none }] } := by
  constructor
  · simp only [handlePatientView, hname, List.head?_cons, jsIndexStr, hg, hf,
               List.get?_cons_zero]
  · simp only [handlePatientView_v0, hname, List.head?_cons, jsIndexStr, hg, hf,
               List.get?_cons_zero]

/-- Witness for C8 at the Ana Lee patient of the spec. -/
theorem C8_patient_view_single_info_card_witness :
    handlePatientView (some { name := [{ given := ["Ana"], family := ["Lee"] }] }) =
      some { cards := [{ summary := "Now seeing: " ++ "Ana" ++ " " ++ "Lee",
                         indicator := "info",
                         source := some { label := "CDS Service Tutorial",
                                          url := "https://github.com/cerner/cds-services-tutorial/wiki/Patient-View-Service" },
                         links := [{ label := "Learn more about CDS Hooks",
                                     url := "http://cds-hooks.org",
                                     type := "absolute" }],
                         suggestions := none }] } ∧
    handlePatientView_v0 (some { name := [{ given := ["Ana"], family := ["Lee"] }] }) =
      some { cards := [{ summary := "Now seeing: " ++ "Ana" ++ " " ++ "Lee",
                         indicator := "info",
                         source := none,
                         links := [{ label := "Learn more about CDS Hooks",
                                     url := "http://cds-hooks.org",
                                     type := "absolute" }],
                         suggestions := none }] } :=
  C8_patient_view_single_info_card
    { name := [{ given := ["Ana"], family := ["Lee"] }] }
    { given := ["Ana"], family := ["Lee"] }
    "Ana" "Lee" [] [] [] rfl rfl rfl

/-- Claim C9: every GET to the discovery path is answered by the routing
layer with status 200 and the constant catalog of exactly two service
descriptors in insertion order — the patient-view service with a prefetch
template referencing the patient in context and the medication-ordering
service with no prefetch — and any two invocations yield identical
catalogs; likewise in the `src/unnamed/part_000` variant. -/
theorem C9_discovery_two_services_stable (reqA reqB : Request)
    (hmA : reqA.method = "GET") (hpA : reqA.path = "/cds-services")
    (hmB : reqB.method = "GET") (hpB : reqB.path = "/cds-services") :
    routeOutcome reqA =
      RouteOutcome.routed (some { status := 200,
                                  body := some (RespBody.services discoveryEndpointServices) }) ∧
    discoveryEndpointServices.services = [patientViewExample, orderSelectExample] ∧
    patientViewExample.hook = "patient-view" ∧
    patientViewExample.prefetch =
      some [("requestedPatient", "Patient/\x7b\x7bcontext.patientId\x7d\x7d")] ∧
    orderSelectExample.prefetch = none ∧
    routeOutcome reqA = routeOutcome reqB ∧
    routeOutcome_v0 reqA =
      RouteOutcome.routed (some { status := 200,
                                  body := some (RespBody.services discoveryEndpointServices_v0) }) ∧
    discoveryEndpointServices_v0.services = [patientViewExample_v0, medicationPrescribeExample] ∧
    patientViewExample_v0.prefetch =
      some [("requestedPatient", "Patient/\x7b\x7bPatient.id\x7d\x7d")] ∧
    medicationPrescribeExample.prefetch = none ∧
    routeOutcome_v0 reqA = routeOutcome_v0 reqB := by
  have hA : routeOutcome reqA =
      RouteOutcome.routed (some { status := 200,
                                  body := some (RespBody.services discoveryEndpointServices) }) := by
    unfold routeOutcome
    rw [hmA, hpA]
    simp
  have hB : routeOutcome reqB =
      RouteOutcome.routed (some { status := 200,
                                  body := some (RespBody.services discoveryEndpointServices) }) := by
    unfold routeOutcome
    rw [hmB, hpB]
    simp
  have hA0 : routeOutcome_v0 reqA =
      RouteOutcome.routed (some { status := 200,
                                  body := some (RespBody.services discoveryEndpointServices_v0) }) := by
    unfold routeOutcome_v0
    rw [hmA, hpA]
    simp
  have hB0 : routeOutcome_v0 reqB =
      RouteOutcome.routed (some { status := 200,
                                  body := some (RespBody.services discoveryEndpointServices_v0) }) := by
    unfold routeOutcome_v0
    rw [hmB, hpB]
    simp
  exact ⟨hA, rfl, rfl, rfl, rfl, hA.trans hB.symm, hA0, rfl, rfl, rfl, hA0.trans hB0.symm⟩

/-- Witness for C9 at two concrete discovery GETs with different hosts and
Authorization headers. -/
theorem C9_discovery_two_services_stable_witness :
    routeOutcome { method := "GET", path := "/cds-services", host := "a.example.com",
                   authorization := none, body := emptyBody } =
      RouteOutcome.routed (some { status := 200,
                                  body := some (RespBody.services discoveryEndpointServices) }) ∧
    discoveryEndpointServices.services = [patientViewExample, orderSelectExample] ∧
    patientViewExample.hook = "patient-view" ∧
    patientViewExample.prefetch =
      some [("requestedPatient", "Patient/\x7b\x7bcontext.patientId\x7d\x7d")] ∧
    orderSelectExample.prefetch = none ∧
    routeOutcome { method := "GET", path := "/cds-services", host := "a.example.com",
                   authorization := none, body := emptyBody } =
      routeOutcome { method := "GET", path := "/cds-services", host := "b.example.com",
                     authorization := some "Bearer abc", body := emptyBody } ∧
    routeOutcome_v0 { method := "GET", path := "/cds-services", host := "a.example.com",
                      authorization := none, body := emptyBody } =
      RouteOutcome.routed (some { status := 200,
                                  body := some (RespBody.services discoveryEndpointServices_v0) }) ∧
    discoveryEndpointServices_v0.services = [patientViewExample_v0, medicationPrescribeExample] ∧
    patientViewExample_v0.prefetch =
      some [("requestedPatient", "Patient/\x7b\x7bPatient.id\x7d\x7d")] ∧
    medicationPrescribeExample.prefetch = none ∧
    routeOutcome_v0 { method := "GET", path := "/cds-services", host := "a.example.com",
                      authorization := none, body := emptyBody } =
      routeOutcome_v0 { method := "GET", path := "/cds-services", host := "b.example.com",
                        authorization := some "Bearer abc", body := emptyBody } :=
  C9_discovery_two_services_stable
    { method := "GET", path := "/cds-services", host := "a.example.com",
      authorization := none, body := emptyBody }
    { method := "GET", path := "/cds-services", host := "b.example.com",
      authorization := some "Bearer abc", body := emptyBody }
    rfl rfl rfl rfl

/-- Claim C10: the `src/unnamed/part_000` variant has no authorization
gate: dispatch is the CORS middleware followed directly by routing, its
outcome is never a 401 rejection, and the outcome is independent of the
Authorization header. -/
theorem C10_v0_has_no_authorization_gate (req : Request) (a : Option String) :
    appDispatch_v0 req = (corsHeaders, routeOutcome_v0 req) ∧
    (appDispatch_v0 req).2.isUnauthorized = false ∧
    appDispatch_v0 { req with authorization := a } = appDispatch_v0 req :=
  ⟨rfl, routeOutcome_v0_not_unauthorized req, rfl⟩

/-- Witness for C10 at a concrete POST to the medication-prescribe route
carrying a malformed Authorization header. -/
theorem C10_v0_has_no_authorization_gate_witness :
    appDispatch_v0 { method := "POST", path := "/cds-services/medication-prescribe-example",
                     host := "example.com", authorization := some "Token abc", body := emptyBody }
      = (corsHeaders,
         routeOutcome_v0 { method := "POST", path := "/cds-services/medication-prescribe-example",
                           host := "example.com", authorization := some "Token abc",
                           body := emptyBody }) ∧
    (appDispatch_v0 { method := "POST", path := "/cds-services/medication-prescribe-example",
                      host := "example.com", authorization := some "Token abc",
                      body := emptyBody }).2.isUnauthorized = false ∧
    appDispatch_v0 { method := "POST", path := "/cds-services/medication-prescribe-example",
                     host := "example.com", authorization := none, body := emptyBody }
      = appDispatch_v0 { method := "POST", path := "/cds-services/medication-prescribe-example",
                         host := "example.com", authorization := some "Token abc",
                         body := emptyBody } :=
  C10_v0_has_no_authorization_gate
    { method := "POST", path := "/cds-services/medication-prescribe-example",
      host := "example.com", authorization := some "Token abc", body := emptyBody }
    none

end CDS
